import Mathlib

/-!
# Verification of `sync_functions.py` (zotero2remarkable_bridge)

Shallow embedding of the core sync functions of the repository:
`webdav_uploader`, `webdav_downloader`, `sync_to_rm`, `zotero_upload`,
`add_to_zotero`.  External collaborators (the WebDAV store, the Zotero
API client, the reMarkable API client, the filesystem) are modelled as
explicit inputs: per-call outcomes for network operations, lists of
records for the Zotero library, and event traces for side effects.
Bytes are `List Nat`; a zip archive is its list of entries, which is how
the source uses the `zipfile` library (it only ever calls
`ZipFile.write` to append an entry and `ZipFile.extractall` to extract
every entry).
-/

namespace ZRB

/-- File bytes. -/
abbrev Bytes := List Nat

/-- One entry of a zip archive: member name and member bytes. -/
structure ZipEntry where
  name : String
  data : Bytes
deriving DecidableEq, Repr

/-- A zip archive, as the sequence of its entries.  The source only ever
builds archives by appending entries with `ZipFile.write` and reads them
with `ZipFile.extractall`, so the entry list is the whole observable
state. -/
abbrev ZipArchive := List ZipEntry

/-- Source `add_to_zotero` lines 185-186: `with zipfile.ZipFile(attachment_zip, "w") as zf:
zf.write(pdf_paths[i], arcname=pdf_paths[i].name)` — a fresh archive holding
exactly one entry, the file's bytes under its base name. -/
def makeAttachmentZip (name : String) (data : Bytes) : ZipArchive :=
  [⟨name, data⟩]

/-- Model of `ZipFile.extractall`: writes every entry of the archive, as
`(member name, member bytes)` pairs, into a target directory. -/
def extractAll (z : ZipArchive) : List (String × Bytes) :=
  z.map (fun e => (e.name, e.data))

/-! ## `webdav_uploader` (source lines 102-111)

```python
def webdav_uploader(webdav, remote_path, local_path):
    for i in range(3):
        try:
            webdav.upload_sync(remote_path=remote_path, local_path=local_path)
        except:
            sleep(5)
        else:
            return True
    else:
        return False
```

The collaborator `webdav.upload_sync` is modelled by `put : Nat → PutOutcome`
giving the outcome of the i-th call (0-indexed).  The bare `except:` of the
source catches every exception, so the model routes every non-`ok` outcome
through the same `sleep(5)`-and-retry branch. -/

/-- Outcome of one `webdav.upload_sync` call: success, or an exception.
Exceptions are split into a not-found error and a transient error so that
theorems can ask whether the code distinguishes them (it does not: the
source's bare `except:` catches both identically). -/
inductive PutOutcome where
  | ok
  | notFound
  | transient
deriving DecidableEq, Repr

/-- Result of the uploader: the returned boolean, the number of `put`
calls made, and the number of `sleep(5)` backoffs taken. -/
structure UploadRun where
  result : Bool
  calls : Nat
  sleeps : Nat
deriving DecidableEq, Repr

/-- The `for i in range(3)` loop of `webdav_uploader`: `fuel` attempts
remain, `calls`/`sleeps` made so far.  On `ok` the function returns
`True` (the `else:` of the `try`); on any exception it sleeps and
retries; when the range is exhausted the `for`-`else` returns `False`. -/
def uploaderLoop (put : Nat → PutOutcome) : Nat → Nat → Nat → UploadRun
  | 0, calls, sleeps => ⟨false, calls, sleeps⟩
  | fuel + 1, calls, sleeps =>
    match put calls with
    | .ok => ⟨true, calls + 1, sleeps⟩
    | .notFound => uploaderLoop put fuel (calls + 1) (sleeps + 1)
    | .transient => uploaderLoop put fuel (calls + 1) (sleeps + 1)

/-- Model of `webdav_uploader`: three attempts, starting with no calls made. -/
def webdav_uploader (put : Nat → PutOutcome) : UploadRun :=
  uploaderLoop put 3 0 0

/-! ## `webdav_downloader` (source lines 53-63)

```python
def webdav_downloader(webdav, attachment_id, attachment_name, path):
    file_path = (path / f"{attachment_id}.zip")
    webdav.download_sync(remote_path=f"{attachment_id}.zip", local_path=file_path)
    with zipfile.ZipFile(file_path) as zf:
        zf.extractall(path)
        zf.extractall(".")
    if (path / attachment_name ).is_file():
        file_path.unlink()
```

The model takes the archive `z` that `download_sync` delivered (the
download itself succeeding and the bytes being a well-formed zip).  The
function performs two extractions — one into the scratch directory
`path`, one into the current working directory `"."` — checks no entry
count whatsoever, raises nothing, and deletes the downloaded zip exactly
when a file named `attachment_name` now exists in the scratch directory,
i.e. when the archive held an entry of that name. -/

/-- Result of a `webdav_downloader` run: the error it raised (`none` =
completed normally), the extractions performed in order (target
directory, files written there), and whether the downloaded
`{attachment_id}.zip` was deleted afterwards. -/
structure FetchRun where
  error : Option String
  extractions : List (String × List (String × Bytes))
  zipDeleted : Bool
deriving DecidableEq, Repr

/-- Model of `webdav_downloader`, on the archive the WebDAV store delivered. -/
def webdav_downloader (z : ZipArchive) (attachment_name : String)
    (path : String) : FetchRun :=
  { error := none
    extractions := [(path, extractAll z), (".", extractAll z)]
    zipDeleted := z.any (fun e => e.name == attachment_name) }

/-! ## Zotero tag operations

`pyzotero`'s `add_tags` appends the tag to the record's tag list and
writes it back; `delete_tags` removes every occurrence of the tag (it is
a library-wide operation — line 51's comment notes it has no
item-specific counterpart — modelled here by its effect on the one
item's tag list). -/

/-- Model of `zot.add_tags(record, t)`: append `t` to the record's tag list. -/
def add_tags (tags : List String) (t : String) : List String :=
  tags ++ [t]

/-- Model of `zot.delete_tags(t)` restricted to one record: remove every
occurrence of `t` from its tag list. -/
def delete_tag (tags : List String) (t : String) : List String :=
  tags.filter (fun s => s != t)

/-! ## `sync_to_rm` (source lines 20-51)

For each child attachment of the item whose `contentType` is present and
equals `"application/pdf"`, the source fetches the file (WebDAV or
`zot.dump`) and uploads it to the reMarkable; `modified` is set on the
first successful upload and never cleared.  After the loop, only `if
modified:` are the tags touched: `zot.add_tags(item, "synced")` then
`zot.delete_tags("to_sync")`.  The reMarkable collaborator
`rmapi.upload_file` is modelled by `uploadOk`; `file_name` on line 39 is
a `Path` and hence always truthy, so the upload is attempted for every
PDF attachment. -/

/-- A child attachment record as `sync_to_rm` sees it: the
`contentType` field of its data (absent or some string) and its
filename. -/
structure RmAttachment where
  contentType : Option String
  filename : String
deriving DecidableEq, Repr

/-- The attachment loop of `sync_to_rm`: threads the `modified` flag,
setting it to `true` whenever a PDF attachment's upload succeeds. -/
def syncLoop (uploadOk : RmAttachment → Bool) :
    List RmAttachment → Bool → Bool
  | [], modified => modified
  | a :: rest, modified =>
    if a.contentType = some "application/pdf" then
      if uploadOk a then syncLoop uploadOk rest true
      else syncLoop uploadOk rest modified
    else
      syncLoop uploadOk rest modified

/-- Model of `sync_to_rm`'s effect on the item's tag list: tags change
(append `"synced"`, strip `"to_sync"`) exactly when `modified` ended up
`true`. -/
def sync_to_rm (attachments : List RmAttachment)
    (uploadOk : RmAttachment → Bool) (itemTags : List String) :
    List String :=
  if syncLoop uploadOk attachments false then
    delete_tag (add_tags itemTags "synced") "to_sync"
  else
    itemTags

/-! ## `zotero_upload` (source lines 113-152)

```python
def zotero_upload(pdf_path, zot, webdav):
    md_name = f"{pdf_path.stem} _obsidian.md"
    ...
    annotated_name = f"(Annotated) {pdf_path.stem}{pdf_path.suffix}"
    ...
    pdf_path.rename(str(annotated_path))
    for item in zot.items(tag="synced"):
        for attachment in zot.children(item_id):
            if attachment["data"].get("filename", "") == pdf_path.name:
                if not already_uploaded:
                    ... upload; on success/unchanged add "annotated" tag; return
                elif already_uploaded:
                    ... warn; return
    ... warn: no matching item
```

The rename happens unconditionally, before the search.  The search walks
the `synced`-tagged items in order and each item's attachments in order;
the first attachment whose filename equals the PDF's name decides the
outcome.  `pathlib` guarantees `name = stem + suffix`, so the model
takes `stem` and `suffix` and the renamed file is
`"(Annotated) " ++ stem ++ suffix`.  The upload collaborator
(`add_to_zotero` on WebDAV, `zot.attachment_simple` otherwise) is
modelled by `uploadOk`, the truth of `upload.get("success") or
upload.get("unchanged")`. -/

/-- A Zotero attachment record: filename and tag list. -/
structure ZAttachment where
  filename : String
  tags : List String
deriving DecidableEq, Repr

/-- A Zotero item with its child attachments. -/
structure ZItem where
  key : String
  attachments : List ZAttachment
deriving DecidableEq, Repr

/-- How a `zotero_upload` run ended: uploaded and tagged the match,
upload attempted but failed, skipped because the match already carries
`"annotated"`, or no attachment matched at all. -/
inductive ZOutcome where
  | uploadedTagged
  | uploadFailed
  | alreadyAnnotated
  | noMatch
deriving DecidableEq, Repr

/-- The inner attachment loop on one item: `none` when no attachment's
filename matches; otherwise the outcome decided by the first match and
the item's attachment list afterwards (the matched attachment gains the
`"annotated"` tag exactly when the upload succeeded). -/
def actOnAtts (pname : String) (uploadOk : Bool) :
    List ZAttachment → Option (ZOutcome × List ZAttachment)
  | [] => none
  | a :: rest =>
    if a.filename = pname then
      if "annotated" ∈ a.tags then
        some (.alreadyAnnotated, a :: rest)
      else if uploadOk then
        some (.uploadedTagged, { a with tags := add_tags a.tags "annotated" } :: rest)
      else
        some (.uploadFailed, a :: rest)
    else
      (actOnAtts pname uploadOk rest).map (fun pr => (pr.1, a :: pr.2))

/-- The outer item loop: first item owning a matching attachment decides
the outcome (each branch `return`s); items after it are untouched. -/
def zuLoop (pname : String) (uploadOk : Bool) :
    List ZItem → ZOutcome × List ZItem
  | [] => (.noMatch, [])
  | it :: rest =>
    match actOnAtts pname uploadOk it.attachments with
    | some (o, atts') => (o, { it with attachments := atts' } :: rest)
    | none =>
      let r := zuLoop pname uploadOk rest
      (r.1, it :: r.2)

/-- First attachment, across the items in order, whose filename equals
`pname` — the record `zotero_upload`'s search would act on. -/
def findAtt (pname : String) : List ZAttachment → Option ZAttachment
  | [] => none
  | a :: rest => if a.filename = pname then some a else findAtt pname rest

/-- First matching attachment across the `synced` items, in search
order. -/
def firstMatch (pname : String) : List ZItem → Option ZAttachment
  | [] => none
  | it :: rest =>
    match findAtt pname it.attachments with
    | some a => some a
    | none => firstMatch pname rest

/-- Model of `Path.rename`: in a directory listing, the old name disappears and
the new one appears. -/
def renameFile (fs : List String) (old new : String) : List String :=
  fs.filter (fun f => f != old) ++ [new]

/-- The `"(Annotated) {pdf_path.stem}{pdf_path.suffix}"` name. -/
def annotatedName (stem suffix : String) : String :=
  "(Annotated) " ++ stem ++ suffix

/-- The `"{pdf_path.stem} _obsidian.md"` companion name. -/
def mdName (stem : String) : String :=
  stem ++ " _obsidian.md"

/-- Result of a `zotero_upload` run: outcome, the `synced` items
afterwards, the file lists passed to upload calls (in order), and the
local directory listing afterwards. -/
structure ZUploadRun where
  outcome : ZOutcome
  items : List ZItem
  uploads : List (List String)
  fs : List String
deriving DecidableEq, Repr

/-- Model of `zotero_upload`: rename first, then search; exactly one upload call
is made when a not-yet-annotated match is found (its file list is the
annotated PDF plus the markdown companion when that exists), and none
otherwise. -/
def zotero_upload (stem suffix : String) (mdExists : Bool) (uploadOk : Bool)
    (fs : List String) (syncedItems : List ZItem) : ZUploadRun :=
  let name := stem ++ suffix
  let fs' := renameFile fs name (annotatedName stem suffix)
  let r := zuLoop name uploadOk syncedItems
  { outcome := r.1
    items := r.2
    uploads :=
      if r.1 = .uploadedTagged ∨ r.1 = .uploadFailed then
        [[annotatedName stem suffix] ++ (if mdExists then [mdName stem] else [])]
      else []
    fs := fs' }

/-! ## `add_to_zotero` (source lines 155-219)

Per file, in source order:

1. fill an attachment item template and `zot.create_items` it; on
   failure set `result["success"] = False` and `return result`
   immediately (lines 176-181);
2. create the local zip `{key}.zip` holding the file under its base
   name (lines 184-187);
3. `webdav_uploader` the zip; on failure set `result["success"] =
   False` and log — execution continues (lines 190-195);
4. create the local propfile `{key}.prop` (lines 200-203);
5. `webdav_uploader` the propfile; on failure set `result["success"] =
   False` (lines 206-211);
6. unconditionally unlink the source PDF, the zip and the propfile
   (lines 215-217).

The Zotero and WebDAV collaborators are a per-file environment: the
storage key the library assigns, whether `create_items` succeeds, and
the per-attempt outcomes of the two `webdav_uploader` calls (the model
runs the `webdav_uploader` definition above on them).  Side effects are
an event trace. -/

/-- One observable side effect of `add_to_zotero`: creating the local
container zip, attempting its upload (with the resulting boolean),
creating the local properties file, attempting its upload, or deleting
a local file. -/
inductive Ev where
  | createZip (key : String)
  | uploadZip (key : String) (ok : Bool)
  | createProp (key : String)
  | uploadProp (key : String) (ok : Bool)
  | deleteLocal (name : String)
deriving DecidableEq, Repr

/-- Collaborator behaviour for one file: key assigned by
`zot.create_items`, whether that call succeeds, and the outcome of each
`webdav.upload_sync` attempt for the container zip and for the
properties file. -/
structure FileEnv where
  key : String
  createOk : Bool
  zipPut : Nat → PutOutcome
  propPut : Nat → PutOutcome

/-- Result of an `add_to_zotero` run: the `success` entry of the
returned dictionary, and the event trace. -/
structure StoreRun where
  success : Bool
  events : List Ev
deriving DecidableEq, Repr

/-- The per-file body of `add_to_zotero`'s loop, threading the sticky
`result["success"]` flag and the event trace.  A `create_items` failure
returns at once with `success = false`; an upload failure only clears
the flag and execution falls through to the next step. -/
def addLoop : List (String × FileEnv) → Bool → List Ev → StoreRun
  | [], success, evs => ⟨success, evs⟩
  | (name, env) :: rest, success, evs =>
    if env.createOk then
      let zipOk := (webdav_uploader env.zipPut).result
      let propOk := (webdav_uploader env.propPut).result
      addLoop rest (success && zipOk && propOk)
        (evs ++ [.createZip env.key, .uploadZip env.key zipOk,
                 .createProp env.key, .uploadProp env.key propOk,
                 .deleteLocal name, .deleteLocal (env.key ++ ".zip"),
                 .deleteLocal (env.key ++ ".prop")])
    else
      ⟨false, evs⟩

/-- Model of `add_to_zotero`, starting from `result = {"success": True, ...}` and
an empty trace. -/
def add_to_zotero (files : List (String × FileEnv)) : StoreRun :=
  addLoop files true []

/-- The trace `add_to_zotero` produces for one file whose
`create_items` succeeded. -/
def perFileTrace (name : String) (env : FileEnv) : List Ev :=
  [.createZip env.key,
   .uploadZip env.key (webdav_uploader env.zipPut).result,
   .createProp env.key,
   .uploadProp env.key (webdav_uploader env.propPut).result,
   .deleteLocal name, .deleteLocal (env.key ++ ".zip"),
   .deleteLocal (env.key ++ ".prop")]

/-! ## Helper lemmas -/

/-- When every attempt fails, the retry loop exhausts its fuel, making
one call and one backoff sleep per remaining attempt. -/
theorem uploaderLoop_all_fail (put : Nat → PutOutcome)
    (h : ∀ i, put i ≠ PutOutcome.ok) :
    ∀ fuel calls sleeps, uploaderLoop put fuel calls sleeps =
      ⟨false, calls + fuel, sleeps + fuel⟩ := by
  intro fuel
  induction fuel with
  | zero => intro c s; simp [uploaderLoop]
  | succ n ih =>
    intro c s
    cases hc : put c with
    | ok => exact absurd hc (h c)
    | notFound =>
      rw [uploaderLoop, hc, ih]
      simp only [UploadRun.mk.injEq, true_and]
      omega
    | transient =>
      rw [uploaderLoop, hc, ih]
      simp only [UploadRun.mk.injEq, true_and]
      omega

/-! ## Claims about `webdav_uploader` -/

/-- C4: against a `put` that fails on every call, `webdav_uploader`
invokes `put` exactly 3 times (`maxAttempts`) and returns `false`
without raising; if `put` succeeds on the first attempt it returns
`true` after exactly one call (and no backoff sleep). -/
theorem webdav_uploader_retry_bound (put : Nat → PutOutcome) :
    ((∀ i, put i ≠ PutOutcome.ok) →
      webdav_uploader put = ⟨false, 3, 3⟩)
    ∧ (put 0 = PutOutcome.ok →
      webdav_uploader put = ⟨true, 1, 0⟩) := by
  constructor
  · intro h
    simpa [webdav_uploader] using uploaderLoop_all_fail put h 3 0 0
  · intro h
    simp [webdav_uploader, uploaderLoop, h]

/-- Witness for C4: a put failing transiently on every call is called
exactly 3 times and the uploader returns `false`; an immediately
successful put is called once and the uploader returns `true`. -/
theorem webdav_uploader_retry_bound_witness :
    webdav_uploader (fun _ => PutOutcome.transient) = ⟨false, 3, 3⟩
    ∧ webdav_uploader (fun _ => PutOutcome.ok) = ⟨true, 1, 0⟩ :=
  ⟨(webdav_uploader_retry_bound (fun _ => PutOutcome.transient)).1
      (fun _ h => PutOutcome.noConfusion h),
   (webdav_uploader_retry_bound (fun _ => PutOutcome.ok)).2 rfl⟩

/-- Counterexample to C5: a `put` that reports not-found on every call
is still called 3 times with 3 backoff sleeps — not 1 call and 0 sleeps
as an immediate surfacing of not-found would give.  The bare `except:`
of the source retries every exception alike. -/
theorem webdav_uploader_notFound_retried_cex :
    webdav_uploader (fun _ => PutOutcome.notFound) = ⟨false, 3, 3⟩
    ∧ (webdav_uploader (fun _ => PutOutcome.notFound)).calls ≠ 1
    ∧ (webdav_uploader (fun _ => PutOutcome.notFound)).sleeps ≠ 0 := by
  refine ⟨rfl, ?_, ?_⟩ <;> decide

/-- C5 (amended): `webdav_uploader` does not distinguish not-found from
transient failures — a `put` that reports not-found on every call is
retried with backoff like any other failure, being called exactly 3
times with 3 backoff sleeps before the uploader returns `false`. -/
theorem webdav_uploader_notFound_like_transient (put : Nat → PutOutcome)
    (h : ∀ i, put i = PutOutcome.notFound) :
    webdav_uploader put = ⟨false, 3, 3⟩ := by
  have h' : ∀ i, put i ≠ PutOutcome.ok := by
    intro i hi
    rw [h i] at hi
    exact PutOutcome.noConfusion hi
  simpa [webdav_uploader] using uploaderLoop_all_fail put h' 3 0 0

/-- Witness for the amended C5 at the constant not-found put. -/
theorem webdav_uploader_notFound_like_transient_witness :
    webdav_uploader (fun _ => PutOutcome.notFound) = ⟨false, 3, 3⟩ :=
  webdav_uploader_notFound_like_transient (fun _ => PutOutcome.notFound)
    (fun _ => rfl)

/-! ## Claims about `webdav_downloader` -/

/-- Counterexample to C3: a zero-entry container and a two-entry
container are both accepted by `webdav_downloader` without any error —
there is no `MalformedContainer` rejection (and no rejection at all). -/
theorem webdav_downloader_no_malformed_rejection_cex :
    (webdav_downloader [] "a.pdf" "scratch").error = none
    ∧ (webdav_downloader [⟨"x.pdf", [1]⟩, ⟨"y.pdf", [2]⟩] "x.pdf" "scratch").error = none :=
  ⟨rfl, rfl⟩

/-- C3 (amended): `webdav_downloader` performs no entry-count validation
at all: whatever the archive's entry count (zero, one or several), it
completes without raising any error, and the downloaded zip is deleted
exactly when an entry named `attachment_name` was extracted. -/
theorem webdav_downloader_no_validation (z : ZipArchive)
    (name path : String) :
    (webdav_downloader z name path).error = none
    ∧ ((webdav_downloader z name path).zipDeleted = true ↔
        ∃ e ∈ z, e.name = name) := by
  refine ⟨rfl, ?_⟩
  simp [webdav_downloader, List.any_eq_true]

/-- C10: every fetch extracts the container's full entry list twice —
once into the requested scratch directory and once into the process's
current working directory `"."` — leaving a second copy of every
extracted file outside the scratch area. -/
theorem webdav_downloader_extracts_to_cwd (z : ZipArchive)
    (name path : String) :
    (webdav_downloader z name path).extractions =
      [(path, extractAll z), (".", extractAll z)] :=
  rfl

/-- C8: round-trip of the storage codec — decoding (downloading and
extracting) the container built by zipping a non-empty file under its
base name yields exactly the original bytes under the original base
name, in the scratch directory (and, per C10, a second time in the
working directory); the extracted-file check then passes and the
transport zip is deleted. -/
theorem encode_decode_roundtrip (name : String) (data : Bytes)
    (path : String) (_h : data ≠ []) :
    (webdav_downloader (makeAttachmentZip name data) name path).extractions =
      [(path, [(name, data)]), (".", [(name, data)])]
    ∧ (webdav_downloader (makeAttachmentZip name data) name path).zipDeleted = true := by
  refine ⟨rfl, ?_⟩
  simp [webdav_downloader, makeAttachmentZip]

/-- Witness for C8 on the concrete non-empty file
`doc.pdf = [3, 1, 4]`. -/
theorem encode_decode_roundtrip_witness :
    ([3, 1, 4] : Bytes) ≠ []
    ∧ ((webdav_downloader (makeAttachmentZip "doc.pdf" [3, 1, 4]) "doc.pdf" "scratch").extractions =
        [("scratch", [("doc.pdf", [3, 1, 4])]), (".", [("doc.pdf", [3, 1, 4])])]
      ∧ (webdav_downloader (makeAttachmentZip "doc.pdf" [3, 1, 4]) "doc.pdf" "scratch").zipDeleted = true) :=
  ⟨by decide, encode_decode_roundtrip "doc.pdf" [3, 1, 4] "scratch" (by decide)⟩

/-! ## Claims about `sync_to_rm` -/

/-- The `modified` flag computed by the attachment loop is the initial
flag or-ed with "some PDF attachment's upload succeeded". -/
theorem syncLoop_eq_any (up : RmAttachment → Bool) :
    ∀ atts m, syncLoop up atts m =
      (m || atts.any (fun a =>
        decide (a.contentType = some "application/pdf") && up a)) := by
  intro atts
  induction atts with
  | nil => intro m; simp [syncLoop]
  | cons a rest ih =>
    intro m
    by_cases hc : a.contentType = some "application/pdf"
    · cases hu : up a
      · simp [syncLoop, hc, hu, ih]
      · simp [syncLoop, hc, hu, ih]
    · simp [syncLoop, hc, ih]

/-- C6: `sync_to_rm` changes the item's tag list (append `"synced"`,
strip `"to_sync"`) if at least one PDF attachment's upload succeeded,
and leaves the item's tag list untouched if every PDF attachment's
upload failed. -/
theorem sync_to_rm_tag_change_iff (atts : List RmAttachment)
    (up : RmAttachment → Bool) (tags : List String) :
    ((∃ a ∈ atts, a.contentType = some "application/pdf" ∧ up a = true) →
      sync_to_rm atts up tags = delete_tag (add_tags tags "synced") "to_sync")
    ∧ ((∀ a ∈ atts, a.contentType = some "application/pdf" → up a = false) →
      sync_to_rm atts up tags = tags) := by
  have hA := syncLoop_eq_any up atts false
  constructor
  · rintro ⟨a, ha, hpdf, hup⟩
    have hmod : syncLoop up atts false = true := by
      rw [hA]
      simp only [Bool.false_or, List.any_eq_true]
      exact ⟨a, ha, by simp [hpdf, hup]⟩
    simp [sync_to_rm, hmod]
  · intro h
    have hmod : syncLoop up atts false = false := by
      rw [hA]
      simp only [Bool.false_or, List.any_eq_false]
      intro a ha
      by_cases hpdf : a.contentType = some "application/pdf"
      · simp [hpdf, h a ha hpdf]
      · simp [hpdf]
    simp [sync_to_rm, hmod]

/-- Witness for C6: a single PDF attachment whose upload succeeds moves
the tags from `["to_sync"]` to `["synced"]`; the same attachment with a
failing upload leaves them at `["to_sync"]`. -/
theorem sync_to_rm_tag_change_iff_witness :
    sync_to_rm [⟨some "application/pdf", "p.pdf"⟩] (fun _ => true) ["to_sync"] =
      delete_tag (add_tags ["to_sync"] "synced") "to_sync"
    ∧ sync_to_rm [⟨some "application/pdf", "p.pdf"⟩] (fun _ => false) ["to_sync"] =
      ["to_sync"]
    ∧ delete_tag (add_tags ["to_sync"] "synced") "to_sync" = ["synced"] :=
  ⟨(sync_to_rm_tag_change_iff _ _ _).1
      ⟨⟨some "application/pdf", "p.pdf"⟩, by simp, rfl, rfl⟩,
   (sync_to_rm_tag_change_iff _ _ _).2 (fun _ _ _ => rfl),
   by decide⟩

/-! ## Claims about `zotero_upload` -/

/-- The attachment loop declines an item exactly when no attachment's
filename matches. -/
theorem actOnAtts_eq_none (pname : String) (up : Bool) :
    ∀ atts, actOnAtts pname up atts = none ↔ findAtt pname atts = none := by
  intro atts
  induction atts with
  | nil => simp [actOnAtts, findAtt]
  | cons a rest ih =>
    by_cases hf : a.filename = pname
    · simp only [actOnAtts, findAtt, if_pos hf]
      split_ifs <;> simp
    · simp [actOnAtts, findAtt, if_neg hf, Option.map_eq_none', ih]

/-- When the first matching attachment already carries `"annotated"`,
the attachment loop reports `alreadyAnnotated` and returns the
attachment list unchanged. -/
theorem actOnAtts_annotated (pname : String) (up : Bool) :
    ∀ atts a, findAtt pname atts = some a → "annotated" ∈ a.tags →
      actOnAtts pname up atts = some (.alreadyAnnotated, atts) := by
  intro atts
  induction atts with
  | nil => intro a h; simp [findAtt] at h
  | cons b rest ih =>
    intro a hfind hann
    by_cases hf : b.filename = pname
    · rw [findAtt, if_pos hf] at hfind
      injection hfind with hba
      subst hba
      simp [actOnAtts, if_pos hf, hann]
    · rw [findAtt, if_neg hf] at hfind
      simp [actOnAtts, if_neg hf, ih a hfind hann]

/-- The item loop on a library whose first match already carries
`"annotated"`: outcome `alreadyAnnotated`, items unchanged. -/
theorem zuLoop_annotated (pname : String) (up : Bool) :
    ∀ items a, firstMatch pname items = some a → "annotated" ∈ a.tags →
      zuLoop pname up items = (.alreadyAnnotated, items) := by
  intro items
  induction items with
  | nil => intro a h; simp [firstMatch] at h
  | cons it rest ih =>
    intro a hfm hann
    cases hf : findAtt pname it.attachments with
    | some b =>
      simp only [firstMatch, hf] at hfm
      injection hfm with hba
      subst hba
      simp [zuLoop, actOnAtts_annotated pname up it.attachments b hf hann]
    | none =>
      simp only [firstMatch, hf] at hfm
      have hact : actOnAtts pname up it.attachments = none :=
        (actOnAtts_eq_none pname up it.attachments).mpr hf
      simp [zuLoop, hact, ih a hfm hann]

/-- After the attachment loop uploads and tags a match, re-running it
on the resulting attachment list hits the `alreadyAnnotated` guard and
changes nothing. -/
theorem actOnAtts_uploaded (pname : String) (up : Bool) :
    ∀ atts atts', actOnAtts pname up atts = some (.uploadedTagged, atts') →
      ∀ up', actOnAtts pname up' atts' = some (.alreadyAnnotated, atts') := by
  intro atts
  induction atts with
  | nil => intro atts' h; simp [actOnAtts] at h
  | cons b rest ih =>
    intro atts' h up'
    by_cases hf : b.filename = pname
    · simp only [actOnAtts, if_pos hf] at h
      by_cases hann : "annotated" ∈ b.tags
      · rw [if_pos hann] at h
        simp at h
      · rw [if_neg hann] at h
        cases hB : up with
        | false =>
          rw [hB] at h
          simp at h
        | true =>
          rw [hB] at h
          simp only [if_true, Option.some.injEq, Prod.mk.injEq, true_and] at h
          subst h
          simp [actOnAtts, hf, add_tags]
    · simp only [actOnAtts, if_neg hf] at h
      cases hrest : actOnAtts pname up rest with
      | none =>
        rw [hrest] at h
        simp at h
      | some pr =>
        obtain ⟨o, r'⟩ := pr
        rw [hrest] at h
        simp only [Option.map_some', Option.some.injEq, Prod.mk.injEq] at h
        obtain ⟨ho, hatts⟩ := h
        subst ho
        subst hatts
        simp [actOnAtts, if_neg hf, ih r' hrest up']

/-- After the item loop uploads and tags a match, re-running it on the
resulting library reports `alreadyAnnotated` and changes nothing. -/
theorem zuLoop_uploaded (pname : String) (up : Bool) :
    ∀ items items', zuLoop pname up items = (.uploadedTagged, items') →
      ∀ up', zuLoop pname up' items' = (.alreadyAnnotated, items') := by
  intro items
  induction items with
  | nil => intro items' h; simp [zuLoop] at h
  | cons it rest ih =>
    intro items' h up'
    cases hact : actOnAtts pname up it.attachments with
    | some pr =>
      obtain ⟨o, atts'⟩ := pr
      simp only [zuLoop, hact, Prod.mk.injEq] at h
      obtain ⟨ho, hi⟩ := h
      subst ho
      subst hi
      simp [zuLoop, actOnAtts_uploaded pname up it.attachments atts' hact up']
    | none =>
      simp only [zuLoop, hact, Prod.mk.injEq] at h
      obtain ⟨h1, h2⟩ := h
      subst h2
      have hpair : zuLoop pname up rest =
          (.uploadedTagged, (zuLoop pname up rest).2) := by
        rw [← h1]
      have hact2 : actOnAtts pname up' it.attachments = none :=
        (actOnAtts_eq_none pname up' it.attachments).mpr
          ((actOnAtts_eq_none pname up it.attachments).mp hact)
      simp [zuLoop, hact2, ih (zuLoop pname up rest).2 hpair up']

/-- C7: upload-back is idempotent per attachment.  First conjunct: when
the first matching attachment across the `synced` items already carries
the `"annotated"` tag, `zotero_upload` performs no upload call and
leaves every item's tags unchanged.  Second conjunct: after a pass that
uploaded and tagged a match, running the pass again over the resulting
library performs no upload and changes nothing. -/
theorem zotero_upload_idempotent (stem suffix : String)
    (md md' up up' : Bool) (fs fs' : List String) (items : List ZItem) :
    (∀ a, firstMatch (stem ++ suffix) items = some a →
        "annotated" ∈ a.tags →
        (zotero_upload stem suffix md up fs items).outcome = ZOutcome.alreadyAnnotated
        ∧ (zotero_upload stem suffix md up fs items).uploads = []
        ∧ (zotero_upload stem suffix md up fs items).items = items)
    ∧ ((zotero_upload stem suffix md up fs items).outcome = ZOutcome.uploadedTagged →
        (zotero_upload stem suffix md' up' fs'
            ((zotero_upload stem suffix md up fs items).items)).outcome = ZOutcome.alreadyAnnotated
        ∧ (zotero_upload stem suffix md' up' fs'
            ((zotero_upload stem suffix md up fs items).items)).uploads = []
        ∧ (zotero_upload stem suffix md' up' fs'
            ((zotero_upload stem suffix md up fs items).items)).items =
          (zotero_upload stem suffix md up fs items).items) := by
  constructor
  · intro a hfm hann
    have hz := zuLoop_annotated (stem ++ suffix) up items a hfm hann
    refine ⟨?_, ?_, ?_⟩ <;> simp [zotero_upload, hz]
  · intro h
    simp only [zotero_upload] at h
    have hpair : zuLoop (stem ++ suffix) up items =
        (.uploadedTagged, (zuLoop (stem ++ suffix) up items).2) := by
      rw [← h]
    have hz := zuLoop_uploaded (stem ++ suffix) up items
      (zuLoop (stem ++ suffix) up items).2 hpair up'
    refine ⟨?_, ?_, ?_⟩ <;> simp [zotero_upload, hz]

/-- Witness for C7: a library whose matching attachment is already
tagged `"annotated"` is left untouched with no upload; and a successful
pass followed by a second pass on its result uploads nothing further and
changes nothing. -/
theorem zotero_upload_idempotent_witness :
    ((zotero_upload "paper" ".pdf" false false ["paper.pdf"]
        [⟨"I1", [⟨"paper.pdf", ["annotated"]⟩]⟩]).outcome = ZOutcome.alreadyAnnotated
      ∧ (zotero_upload "paper" ".pdf" false false ["paper.pdf"]
        [⟨"I1", [⟨"paper.pdf", ["annotated"]⟩]⟩]).uploads = []
      ∧ (zotero_upload "paper" ".pdf" false false ["paper.pdf"]
        [⟨"I1", [⟨"paper.pdf", ["annotated"]⟩]⟩]).items =
          [⟨"I1", [⟨"paper.pdf", ["annotated"]⟩]⟩])
    ∧ ((zotero_upload "paper" ".pdf" false true ["paper.pdf"]
          ((zotero_upload "paper" ".pdf" false true ["paper.pdf"]
            [⟨"I2", [⟨"paper.pdf", []⟩]⟩]).items)).outcome = ZOutcome.alreadyAnnotated
      ∧ (zotero_upload "paper" ".pdf" false true ["paper.pdf"]
          ((zotero_upload "paper" ".pdf" false true ["paper.pdf"]
            [⟨"I2", [⟨"paper.pdf", []⟩]⟩]).items)).uploads = []
      ∧ (zotero_upload "paper" ".pdf" false true ["paper.pdf"]
          ((zotero_upload "paper" ".pdf" false true ["paper.pdf"]
            [⟨"I2", [⟨"paper.pdf", []⟩]⟩]).items)).items =
          (zotero_upload "paper" ".pdf" false true ["paper.pdf"]
            [⟨"I2", [⟨"paper.pdf", []⟩]⟩]).items) :=
  ⟨(zotero_upload_idempotent "paper" ".pdf" false false false false
      ["paper.pdf"] ["paper.pdf"] [⟨"I1", [⟨"paper.pdf", ["annotated"]⟩]⟩]).1
      ⟨"paper.pdf", ["annotated"]⟩ (by decide) (by decide),
   (zotero_upload_idempotent "paper" ".pdf" false false true true
      ["paper.pdf"] ["paper.pdf"] [⟨"I2", [⟨"paper.pdf", []⟩]⟩]).2 (by decide)⟩

/-- The annotated rename target is a strictly longer string than the
original name, hence distinct from it. -/
theorem annotatedName_ne (stem suffix : String) :
    annotatedName stem suffix ≠ stem ++ suffix := by
  intro h
  have hlen := congrArg String.length h
  rw [annotatedName, String.length_append, String.length_append,
    String.length_append] at hlen
  have h12 : "(Annotated) ".length = 12 := rfl
  rw [h12] at hlen
  omega

/-- C9: `zotero_upload` renames the local rendered PDF to
`"(Annotated) " ++ name` unconditionally, before the search — for every
library, including one with no matching attachment and one whose match
is already tagged, the resulting directory listing is the renamed one:
the annotated name is present and the original name is gone. -/
theorem zotero_upload_renames_before_search (stem suffix : String)
    (md up : Bool) (fs : List String) (items : List ZItem) :
    (zotero_upload stem suffix md up fs items).fs =
      renameFile fs (stem ++ suffix) (annotatedName stem suffix)
    ∧ annotatedName stem suffix ∈ (zotero_upload stem suffix md up fs items).fs
    ∧ (stem ++ suffix) ∉ (zotero_upload stem suffix md up fs items).fs := by
  refine ⟨rfl, ?_, ?_⟩
  · simp [zotero_upload, renameFile]
  · intro hmem
    simp only [zotero_upload, renameFile, List.mem_append, List.mem_filter,
      List.mem_singleton, bne_self_eq_false, Bool.false_eq_true, and_false,
      false_or] at hmem
    exact annotatedName_ne stem suffix hmem.symm

/-! ## Claims about `add_to_zotero` -/

/-- C1 (bug exhibit): on a file whose attachment record is created but
whose container upload fails on every attempt while the properties
upload would succeed, `add_to_zotero` reports failure (`success =
false`) and the container upload does precede the properties step — but
the run does **not** abort: the properties file is still created and
uploaded after the failed container upload (and the local files are
deleted), exactly the dangling-properties situation the claim rules
out.  The source logs `"Failed uploading attachment, skipping..."` on
this path yet skips nothing, in contrast with its `create_items`
failure branch which does return. -/
theorem add_to_zotero_container_failure_no_abort :
    add_to_zotero
        [("a.pdf", ⟨"ABCD2345", true,
          fun _ => PutOutcome.transient, fun _ => PutOutcome.ok⟩)] =
      ⟨false,
       [Ev.createZip "ABCD2345", Ev.uploadZip "ABCD2345" false,
        Ev.createProp "ABCD2345", Ev.uploadProp "ABCD2345" true,
        Ev.deleteLocal "a.pdf", Ev.deleteLocal "ABCD2345.zip",
        Ev.deleteLocal "ABCD2345.prop"]⟩
    ∧ Ev.createProp "ABCD2345" ∈
        (add_to_zotero
          [("a.pdf", ⟨"ABCD2345", true,
            fun _ => PutOutcome.transient, fun _ => PutOutcome.ok⟩)]).events
    ∧ Ev.uploadProp "ABCD2345" true ∈
        (add_to_zotero
          [("a.pdf", ⟨"ABCD2345", true,
            fun _ => PutOutcome.transient, fun _ => PutOutcome.ok⟩)]).events := by
  refine ⟨by decide, by decide, by decide⟩

/-- Counterexample to C2: on a file whose two uploads both fail,
`add_to_zotero` reports failure yet still deletes the local source PDF,
the container zip and the properties file — they are not left in
place. -/
theorem add_to_zotero_deletes_on_failure_cex :
    (add_to_zotero
        [("b.pdf", ⟨"EFGH6789", true,
          fun _ => PutOutcome.transient, fun _ => PutOutcome.transient⟩)]).success = false
    ∧ Ev.deleteLocal "b.pdf" ∈
        (add_to_zotero
          [("b.pdf", ⟨"EFGH6789", true,
            fun _ => PutOutcome.transient, fun _ => PutOutcome.transient⟩)]).events
    ∧ Ev.deleteLocal "EFGH6789.zip" ∈
        (add_to_zotero
          [("b.pdf", ⟨"EFGH6789", true,
            fun _ => PutOutcome.transient, fun _ => PutOutcome.transient⟩)]).events
    ∧ Ev.deleteLocal "EFGH6789.prop" ∈
        (add_to_zotero
          [("b.pdf", ⟨"EFGH6789", true,
            fun _ => PutOutcome.transient, fun _ => PutOutcome.transient⟩)]).events := by
  refine ⟨by decide, by decide, by decide, by decide⟩

/-- C2 (amended): once the attachment record is created, the local
temporary files (source PDF, container zip, properties file) are
deleted unconditionally at the end of the file's iteration, whatever
the outcome of the two uploads; only a `create_items` failure returns
before the local files are created.  The run's whole trace is the fixed
per-file sequence, independent of the upload outcomes. -/
theorem add_to_zotero_unconditional_cleanup (name : String)
    (env : FileEnv) (h : env.createOk = true) :
    (add_to_zotero [(name, env)]).events = perFileTrace name env
    ∧ Ev.deleteLocal name ∈ (add_to_zotero [(name, env)]).events
    ∧ Ev.deleteLocal (env.key ++ ".zip") ∈ (add_to_zotero [(name, env)]).events
    ∧ Ev.deleteLocal (env.key ++ ".prop") ∈ (add_to_zotero [(name, env)]).events := by
  have hev : (add_to_zotero [(name, env)]).events = perFileTrace name env := by
    simp [add_to_zotero, addLoop, h, perFileTrace]
  refine ⟨hev, ?_, ?_, ?_⟩ <;> rw [hev] <;> simp [perFileTrace]

/-- Witness for the amended C2 at a concrete file whose container
upload fails and whose properties upload succeeds. -/
theorem add_to_zotero_unconditional_cleanup_witness :
    (⟨"IJKL0123", true, fun _ => PutOutcome.transient,
        fun _ => PutOutcome.ok⟩ : FileEnv).createOk = true
    ∧ ((add_to_zotero [("c.pdf", ⟨"IJKL0123", true,
          fun _ => PutOutcome.transient, fun _ => PutOutcome.ok⟩)]).events =
        perFileTrace "c.pdf" ⟨"IJKL0123", true,
          fun _ => PutOutcome.transient, fun _ => PutOutcome.ok⟩
      ∧ Ev.deleteLocal "c.pdf" ∈
          (add_to_zotero [("c.pdf", ⟨"IJKL0123", true,
            fun _ => PutOutcome.transient, fun _ => PutOutcome.ok⟩)]).events
      ∧ Ev.deleteLocal ((⟨"IJKL0123", true, fun _ => PutOutcome.transient,
            fun _ => PutOutcome.ok⟩ : FileEnv).key ++ ".zip") ∈
          (add_to_zotero [("c.pdf", ⟨"IJKL0123", true,
            fun _ => PutOutcome.transient, fun _ => PutOutcome.ok⟩)]).events
      ∧ Ev.deleteLocal ((⟨"IJKL0123", true, fun _ => PutOutcome.transient,
            fun _ => PutOutcome.ok⟩ : FileEnv).key ++ ".prop") ∈
          (add_to_zotero [("c.pdf", ⟨"IJKL0123", true,
            fun _ => PutOutcome.transient, fun _ => PutOutcome.ok⟩)]).events) :=
  ⟨rfl,
   add_to_zotero_unconditional_cleanup "c.pdf"
     ⟨"IJKL0123", true, fun _ => PutOutcome.transient, fun _ => PutOutcome.ok⟩ rfl⟩

end ZRB
